import Mathlib

/-!
Verification of the `tripoll` SNMP interface poller (`src/tripoll.py`)
against its natural-language specification.

The development shallowly embeds the program's pure core:

* the interface resolver `get_interface_ids` (a MIB walk whose rows are
  matched against configured interface-name patterns, first match wins
  per row, SNMP index taken from the final dotted component of the OID);
* the per-host polling round of `worker` (GET per (interface, metric),
  transport/protocol error handling, point construction `build_json`,
  timestamp rendering `get_current_time`, and the hard-coded
  `time.sleep(10)` between rounds).

External effects (the SNMP transport, the wall clock, the InfluxDB sink,
the logger) are passed in as explicit parameters or recorded in an event
trace, so every definition is executable.

Pattern matching in the source is Python `re.search` on the configured
pattern with `"$"` appended (`re.compile("%s$" % interface)`).  The
embedding models the regular-expression fragment actually exercised by
interface-name patterns: literal characters and the `.` wildcard.  The
appended `"$"` is modelled by anchoring the match at the end of the
string; `search` then means the pattern must match a suffix.
-/

/-- A token of a compiled pattern: a literal character, or the `.`
wildcard which matches any character. -/
inductive RTok where
  | lit (c : Char)
  | dot
  deriving Repr, DecidableEq

/-- Whether one pattern token matches one character. -/
def tokMatch : RTok → Char → Bool
  | .lit c, d => c == d
  | .dot, _ => true

/-- Compilation of a single pattern character (Python `re.compile`):
`.` becomes the wildcard, every other character a literal. -/
def tokOf (c : Char) : RTok :=
  if c = '.' then .dot else .lit c

/-- Compilation of a whole pattern (`re.compile("%s$" % interface)`
without the end anchor, which is handled by `re_search_suffix`). -/
def re_compile (p : List Char) : List RTok :=
  p.map tokOf

/-- Match a reversed token list against a reversed character list:
every token must match the corresponding character, starting from the
end of the string. -/
def matchRev : List RTok → List Char → Bool
  | [], _ => true
  | _ :: _, [] => false
  | t :: ts, c :: cs => tokMatch t c && matchRev ts cs

/-- `re.search(re.compile("%s$" % pat), s)` of the source: since every
token consumes exactly one character and the pattern is anchored at the
end by `$`, a search succeeds iff the compiled pattern matches the final
characters of `s`. -/
def re_search_suffix (pat s : String) : Bool :=
  matchRev (re_compile pat.data).reverse s.data.reverse

/-- Split a character list at every `'.'` (Python `str.split('.')`):
`acc` holds the characters of the current component, reversed. -/
def splitDotAux : List Char → List Char → List (List Char)
  | [], acc => [acc.reverse]
  | c :: cs, acc =>
    if c = '.' then acc.reverse :: splitDotAux cs []
    else splitDotAux cs (c :: acc)

/-- Python `oid.split('.')`: the dotted components of `oid`, in order;
always non-empty. -/
def split_on_dot (oid : String) : List String :=
  (splitDotAux oid.data []).map String.mk

/-- `get_interface_id_from_mib` of the source: `oid.split('.')[-1]`,
the final dotted component of the OID string. -/
def get_interface_id_from_mib (oid : String) : String :=
  ((split_on_dot oid).getLast?).getD ""

/-- One (OID, value) varbind returned by the table walk rooted at
`1.3.6.1.2.1.2.2.1.2` (ifDescr); `val` is the `prettyPrint`ed
description string. -/
structure WalkRow where
  oid : String
  val : String
  deriving Repr, DecidableEq

/-- Outcome of the `nextCmd` table walk for one host, as destructured by
`get_interface_ids`: a transport error (`errIndication`), a protocol
error (non-zero `errStatus` with its `errIndex`), or a varbind table.
In the protocol-error case the rows the agent returned are carried
alongside, mirroring that `varbindtable` is populated either way. -/
inductive WalkResult where
  | transportError (detail : String)
  | protocolError (errStatus errIndex : Nat) (rows : List WalkRow)
  | ok (rows : List WalkRow)
  deriving Repr, DecidableEq

/-- Observable logging/printing events of the source. -/
inductive LogEvent where
  | warning (msg : String)
  | protoDiag (errStatus errIndex : Nat)
  | info (msg : String)
  deriving Repr, DecidableEq

/-- The inner pattern loop of `get_interface_ids`: the first configured
pattern (in configured order) whose regex search matches the
description, if any (`break` on first match). -/
def firstMatchingPattern (patterns : List String) (desc : String) : Option String :=
  patterns.find? (fun p => re_search_suffix p desc)

/-- The entry contributed by one walked row: `(pattern, interface_id)`
for the first matching pattern, or nothing if no pattern matches. -/
def rowEntry (patterns : List String) (row : WalkRow) : Option (String × String) :=
  (firstMatchingPattern patterns row.val).map
    (fun p => (p, get_interface_id_from_mib row.oid))

/-- The row loop of `get_interface_ids`: entries appended in table
order, at most one per row. -/
def resolveRows (patterns : List String) (rows : List WalkRow) : List (String × String) :=
  rows.filterMap (rowEntry patterns)

/-- Per-host body of `get_interface_ids`: logging events and the
resolved `(pattern, interface_id)` list.  A transport error logs a
warning and leaves `interfaces` empty; a non-zero error status prints
the diagnostic and also leaves `interfaces` empty (the row-processing
branch is only reached when `err_status` is falsy); otherwise the rows
are matched against the configured patterns. -/
def resolve_host (patterns : List String) (walk : WalkResult) :
    List LogEvent × List (String × String) :=
  match walk with
  | .transportError d => ([.warning d], [])
  | .protocolError st idx _ => ([.protoDiag st idx], [])
  | .ok rows => ([], resolveRows patterns rows)

/-- Pre-resolution configuration, as read from the YAML file: per host
its ordered list of configured interface-name patterns
(`config['hosts'][host]['interfaces']`), plus the global SNMP settings. -/
structure ConfigIn where
  hosts : List (String × List String)
  community : String
  snmpPort : Nat
  deriving Repr, DecidableEq

/-- Configuration after `get_interface_ids` has run: each host's
`interfaces` entry now holds the resolved `(pattern, interface_id)`
pairs. -/
structure ConfigOut where
  hosts : List (String × List (String × String))
  community : String
  snmpPort : Nat
  deriving Repr, DecidableEq

/-- `get_interface_ids` of the source: for every host, walk the
`ifDescr` subtree (`walkOf` is the SNMP transport, one `WalkResult` per
host) and store the resolved pairs back into the host's `interfaces`
entry. -/
def get_interface_ids (cfg : ConfigIn) (walkOf : String → WalkResult) : ConfigOut :=
  { hosts := cfg.hosts.map (fun hp => (hp.1, (resolve_host hp.2 (walkOf hp.1)).2))
    community := cfg.community
    snmpPort := cfg.snmpPort }

/-- The log trail of `get_interface_ids`: the per-host
`'getting interface ids for %s'` info line followed by that host's
warning or diagnostic, in host order. -/
def get_interface_ids_logs (cfg : ConfigIn) (walkOf : String → WalkResult) : List LogEvent :=
  cfg.hosts.flatMap
    (fun hp => .info ("getting interface ids for " ++ hp.1) :: (resolve_host hp.2 (walkOf hp.1)).1)

/-- A Python value stored in a host's `interfaces` list: a configured
pattern string before resolution, or a `(pattern, interface_id)` tuple
after it. -/
abbrev IfaceItem := Sum String (String × String)

/-- The Python list value of a host's `interfaces` entry before
resolution. -/
def patItems (pats : List String) : List IfaceItem :=
  pats.map Sum.inl

/-- The Python list value of a host's `interfaces` entry after
resolution. -/
def resolvedItems (rs : List (String × String)) : List IfaceItem :=
  rs.map Sum.inr

/-- A UTC wall-clock reading, the fields `datetime.utcnow()` exposes to
`strftime`. -/
structure UTCTime where
  year : Nat
  month : Nat
  day : Nat
  hour : Nat
  minute : Nat
  second : Nat
  deriving Repr, DecidableEq

/-- The decimal digit character for `n < 10`. -/
def digitChar (n : Nat) : Char :=
  Char.ofNat (48 + n)

/-- Zero-padded two-digit decimal rendering (strftime `%m`, `%d`, `%H`,
`%M`, `%S` on their in-range values). -/
def two_digit (n : Nat) : String :=
  ⟨[digitChar (n / 10), digitChar (n % 10)]⟩

/-- Zero-padded four-digit decimal rendering (strftime `%Y` on years up
to 9999). -/
def four_digit (n : Nat) : String :=
  ⟨[digitChar (n / 1000), digitChar (n / 100 % 10), digitChar (n / 10 % 10), digitChar (n % 10)]⟩

/-- `get_current_time` of the source:
`datetime.utcnow().strftime('%Y-%m-%dT%H:%M:%SZ')`, with the clock
reading made explicit. -/
def get_current_time (t : UTCTime) : String :=
  four_digit t.year ++ "-" ++ two_digit t.month ++ "-" ++ two_digit t.day ++ "T" ++
    two_digit t.hour ++ ":" ++ two_digit t.minute ++ ":" ++ two_digit t.second ++ "Z"

/-- A string of the shape `YYYY-MM-DDTHH:MM:SSZ`: four decimal digits,
dash, two digits, dash, two digits, `T`, two digits, colon, two digits,
colon, two digits, `Z`. -/
def TimestampForm (s : String) : Prop :=
  ∃ y mo d h mi se : String,
    y.length = 4 ∧ mo.length = 2 ∧ d.length = 2 ∧ h.length = 2 ∧ mi.length = 2 ∧
    se.length = 2 ∧
    (y ++ mo ++ d ++ h ++ mi ++ se).data.all Char.isDigit = true ∧
    s = y ++ "-" ++ mo ++ "-" ++ d ++ "T" ++ h ++ ":" ++ mi ++ ":" ++ se ++ "Z"

/-- A clock reading `datetime.utcnow()` can actually produce (field
ranges of a real datetime, year below 10000 so `%Y` is four digits). -/
def ValidUTC (t : UTCTime) : Prop :=
  t.year < 10000 ∧ t.month < 100 ∧ t.day < 100 ∧ t.hour < 100 ∧ t.minute < 100 ∧
    t.second < 100

/-- One InfluxDB point as assembled by `build_json`. -/
structure Point where
  measurement : String
  host : String
  interface : String
  time : String
  value : Nat
  deriving Repr, DecidableEq

/-- `build_json` of the source: a batch holding exactly one point. -/
def build_json (measurement hostname interface timestamp : String) (value : Nat) :
    List Point :=
  [{ measurement := measurement, host := hostname, interface := interface,
     time := timestamp, value := value }]

/-- Outcome of one SNMP GET as destructured by `poll`: success with the
counter value, a transport error (`errIndication`), or a protocol error
(non-zero `errStatus` with its `errIndex`). -/
inductive PollOutcome where
  | success (value : Nat)
  | transportError (detail : String)
  | protocolError (errStatus errIndex : Nat)
  deriving Repr, DecidableEq

/-- The status component of `poll`'s return tuple: the string
`'success'`, or the truthy `errIndication` object. -/
inductive PollStatus where
  | success
  | errIndication (detail : String)
  deriving Repr, DecidableEq

/-- `poll` of the source.  It returns its log/print events together
with the Python return value: `('success', long(value))` on success,
`(err_indication, 0)` on transport error, and — because the
`err_status` branch only prints and never returns — the implicit `None`
on protocol error. -/
def poll (outcome : PollOutcome) : List LogEvent × Option (PollStatus × Nat) :=
  match outcome with
  | .success v => ([], some (.success, v))
  | .transportError d => ([.warning ("Poll failed: " ++ d)], some (.errIndication d, 0))
  | .protocolError st idx => ([.protoDiag st idx], none)

/-- Observable events of one iteration of `worker`'s infinite loop. -/
inductive WorkerEvent where
  | get (iface : String × String) (metric : String)
  | log (e : LogEvent)
  | write (batch : List Point)
  | crash (msg : String)
  | sleep (seconds : Nat)
  deriving Repr, DecidableEq

/-- The hard-coded metric list of `worker`:
`['ifHCInOctets', 'ifHCOutOctets']`. -/
def worker_metrics : List String :=
  ["ifHCInOctets", "ifHCOutOctets"]

/-- The literal of `time.sleep(10)` at the end of `worker`'s loop
body. -/
def worker_sleep_seconds : Nat :=
  10

/-- The (interface, metric) pairs one round attempts, in execution
order: the metric loop is nested inside the interface loop. -/
def roundAttempts (interfaces : List (String × String)) :
    List ((String × String) × String) :=
  interfaces.flatMap (fun i => worker_metrics.map (fun m => (i, m)))

/-- One `(interface, metric)` attempt of the loop body: issue the GET,
emit `poll`'s log events, then either forward the single-point batch
built from `build_json` (status `'success'`), skip (transport error),
or crash — `status, value = poll(...)` raises `TypeError` when `poll`
returned `None`.  The second component is whether the loop may
continue. -/
def worker_attempt_events (host now : String) (iface : String × String) (metric : String)
    (outcome : PollOutcome) : List WorkerEvent × Bool :=
  match poll outcome with
  | (lg, some (.success, v)) =>
      (.get iface metric :: lg.map .log ++ [.write (build_json metric host iface.1 now v)],
        true)
  | (lg, some (.errIndication _, _)) => (.get iface metric :: lg.map .log, true)
  | (lg, none) =>
      (.get iface metric :: lg.map .log ++ [.crash "TypeError: NoneType is not iterable"],
        false)

/-- The nested for-loops of one round of `worker`, over the attempt
list: events in order, stopping at a crash.  The flag is true iff the
round ran to completion. -/
def worker_round_events (host now : String)
    (outcomeOf : (String × String) → String → PollOutcome) :
    List ((String × String) × String) → List WorkerEvent × Bool
  | [] => ([], true)
  | (iface, metric) :: rest =>
    let r := worker_attempt_events host now iface metric (outcomeOf iface metric)
    if r.2 then
      let r2 := worker_round_events host now outcomeOf rest
      (r.1 ++ r2.1, r2.2)
    else (r.1, false)

/-- One full iteration of `worker`'s `while True` body: the round over
all (interface, metric) pairs followed — only if the round completed —
by the fixed `time.sleep(10)`. -/
def worker_iteration_events (host now : String) (interfaces : List (String × String))
    (outcomeOf : (String × String) → String → PollOutcome) : List WorkerEvent × Bool :=
  let r := worker_round_events host now outcomeOf (roundAttempts interfaces)
  if r.2 then (r.1 ++ [.sleep worker_sleep_seconds], true) else (r.1, false)

/-- The number of GET operations in a trace. -/
def getCount (evs : List WorkerEvent) : Nat :=
  (evs.filter (fun e => match e with | .get _ _ => true | _ => false)).length

/-- The batches forwarded to the sink in a trace, in order. -/
def writtenBatches (evs : List WorkerEvent) : List (List Point) :=
  evs.filterMap (fun e => match e with | .write b => some b | _ => none)

/-- The characters Python's `re` treats as special outside a character
class. -/
def pythonMeta (c : Char) : Bool :=
  c == '.' || c == '^' || c == '$' || c == '*' || c == '+' || c == '?' ||
    c == '\x7b' || c == '\x7d' || c == '[' || c == ']' || c == '\\' || c == '|' ||
    c == '(' || c == ')'

/-- A pattern with no regex metacharacters: every character stands for
itself. -/
def metaFree (p : String) : Bool :=
  p.data.all (fun c => !(pythonMeta c))

/-- Is one poll outcome a protocol error (SNMP error-status set)? -/
def isProtoError : PollOutcome → Bool
  | .protocolError _ _ => true
  | _ => false

/-- Modelled from the spec: the per-host configuration record of §3/§6
(`address, community, port, polling interval, interface-name
patterns`).  The source's YAML schema carries no per-host polling
interval; this record exists only to state the spec's claim that the
poll loop's sleep comes from configuration. -/
structure SpecHostConfig where
  address : String
  community : String
  port : Nat
  interval : Nat
  patterns : List String
  deriving Repr, DecidableEq

/-- The spec-§8 demo row: ifDescr OID of index 5 with description
`GigabitEthernet0/5`. -/
def demoRow5 : WalkRow :=
  ⟨"1.3.6.1.2.1.2.2.1.2.5", "GigabitEthernet0/5"⟩

/-- The spec-§8 demo row of index 7. -/
def demoRow7 : WalkRow :=
  ⟨"1.3.6.1.2.1.2.2.1.2.7", "GigabitEthernet0/7"⟩

/-- A second row whose description also ends in `0/5`, at index 8. -/
def demoRow8 : WalkRow :=
  ⟨"1.3.6.1.2.1.2.2.1.2.8", "TenGigE0/5"⟩

example : re_search_suffix "0/5" "GigabitEthernet0/5" = true := by decide
example : re_search_suffix "0/5" "GigabitEthernet0/7" = false := by decide
example : re_search_suffix "0.5" "GigabitEthernet0x5" = true := by decide
example : get_interface_id_from_mib "1.3.6.1.2.1.2.2.1.2.5" = "5" := by decide
example :
    resolveRows ["0/5"]
      [⟨"1.3.6.1.2.1.2.2.1.2.5", "GigabitEthernet0/5"⟩,
       ⟨"1.3.6.1.2.1.2.2.1.2.7", "GigabitEthernet0/7"⟩] = [("0/5", "5")] := by
  decide

/-- A one-host demo configuration (host `sw1`, pattern `0/5`). -/
def cfgOne : ConfigIn :=
  ⟨[("sw1", ["0/5"])], "public", 161⟩

/-- A two-host demo configuration. -/
def cfgDemo : ConfigIn :=
  ⟨[("sw1", ["0/5"]), ("sw2", ["0/5"])], "public", 161⟩

/-- A transport that walks every host successfully, returning the §8
demo row. -/
def walkOk : String → WalkResult :=
  fun _ => .ok [demoRow5]

/-- A transport where `sw1`'s walk fails at transport level and every
other host's walk succeeds. -/
def walkDemo : String → WalkResult :=
  fun h => if h = "sw1" then .transportError "timeout" else .ok [demoRow5]

/-- GET outcomes where the `ifHCInOctets` GET hits an SNMP protocol
error and every other GET succeeds. -/
def outcomesProto : (String × String) → String → PollOutcome :=
  fun _ m => if m = "ifHCInOctets" then .protocolError 3 1 else .success 42

/-- GET outcomes where every GET succeeds with the §8 demo counter
value. -/
def outcomesOk : (String × String) → String → PollOutcome :=
  fun _ _ => .success 123456

/-- A concrete clock reading. -/
def demoTime : UTCTime :=
  ⟨2026, 1, 1, 0, 0, 0⟩

/-! ### Helper lemmas about the pattern matcher -/

theorem matchRev_map_tokOf_of_isPrefixOf :
    ∀ (p cs : List Char), p.isPrefixOf cs = true → matchRev (p.map tokOf) cs = true := by
  intro p
  induction p with
  | nil => intro cs _; rfl
  | cons a as ih =>
    intro cs h
    cases cs with
    | nil => simp [List.isPrefixOf] at h
    | cons b bs =>
      simp only [List.isPrefixOf, Bool.and_eq_true] at h
      obtain ⟨hab, htail⟩ := h
      simp only [List.map, matchRev, Bool.and_eq_true]
      refine ⟨?_, ih bs htail⟩
      have hab' : a = b := eq_of_beq hab
      subst hab'
      by_cases hd : a = '.'
      · simp [tokOf, hd, tokMatch]
      · simp [tokOf, hd, tokMatch]

theorem matchRev_map_tokOf_no_dot :
    ∀ (p cs : List Char), (∀ c ∈ p, c ≠ '.') →
      matchRev (p.map tokOf) cs = p.isPrefixOf cs := by
  intro p
  induction p with
  | nil => intro cs _; cases cs <;> rfl
  | cons a as ih =>
    intro cs h
    have ha : a ≠ '.' := h a (by simp)
    cases cs with
    | nil => simp [matchRev, List.isPrefixOf]
    | cons b bs =>
      simp only [List.map, matchRev, List.isPrefixOf]
      rw [ih bs (fun c hc => h c (List.mem_cons_of_mem _ hc))]
      simp [tokOf, ha, tokMatch]

theorem re_search_suffix_eq_matchRev (pat s : String) :
    re_search_suffix pat s = matchRev (pat.data.reverse.map tokOf) s.data.reverse := by
  simp [re_search_suffix, re_compile, List.map_reverse]

/-- A description that literally ends with the pattern text always
matches: a literal token matches its own character and the `.` token
matches anything, `'.'` included. -/
theorem re_search_suffix_of_suffix (pat s : String)
    (h : pat.data.isSuffixOf s.data = true) : re_search_suffix pat s = true := by
  rw [re_search_suffix_eq_matchRev]
  exact matchRev_map_tokOf_of_isPrefixOf _ _ (by simpa [List.isSuffixOf] using h)

/-- On metacharacter-free patterns the regex search is exactly the
literal suffix test. -/
theorem re_search_suffix_metaFree (p s : String) (h : metaFree p = true) :
    re_search_suffix p s = p.data.isSuffixOf s.data := by
  have hall : ∀ c ∈ p.data, pythonMeta c = false := by
    intro c hc
    have := (List.all_eq_true.mp h) c hc
    simpa using this
  rw [re_search_suffix_eq_matchRev, List.isSuffixOf]
  refine matchRev_map_tokOf_no_dot _ _ ?_
  intro c hc hdot
  have := hall c (List.mem_reverse.mp hc)
  subst hdot
  simp [pythonMeta] at this

/-! ### Helper lemmas about lists, lookups and traces -/

theorem find?_append_none {α : Type} (p : α → Bool) :
    ∀ (l₁ l₂ : List α), (∀ x ∈ l₁, p x = false) → (l₁ ++ l₂).find? p = l₂.find? p := by
  intro l₁
  induction l₁ with
  | nil => intro l₂ _; rfl
  | cons a as ih =>
    intro l₂ h
    have ha : p a = false := h a (by simp)
    simp [List.find?, ha, ih l₂ (fun x hx => h x (List.mem_cons_of_mem _ hx))]

theorem lookup_map_assoc {β γ : Type} (f : String → β → γ) :
    ∀ (l : List (String × β)) (k : String),
      (l.map (fun hp => (hp.1, f hp.1 hp.2))).lookup k = (l.lookup k).map (f k) := by
  intro l
  induction l with
  | nil => intro k; rfl
  | cons hp rest ih =>
    intro k
    by_cases hk : k = hp.1
    · subst hk
      simp [List.lookup]
    · have hb : (k == hp.1) = false := beq_eq_false_iff_ne.mpr hk
      simp [List.lookup, hb, ih]

theorem getCount_append (a b : List WorkerEvent) :
    getCount (a ++ b) = getCount a + getCount b := by
  simp [getCount, List.filter_append]

theorem writtenBatches_append (a b : List WorkerEvent) :
    writtenBatches (a ++ b) = writtenBatches a ++ writtenBatches b := by
  simp [writtenBatches, List.filterMap_append]

theorem roundAttempts_length (interfaces : List (String × String)) :
    (roundAttempts interfaces).length = interfaces.length * worker_metrics.length := by
  induction interfaces with
  | nil => rfl
  | cons i rest ih =>
    simp only [roundAttempts, List.flatMap_cons, List.length_append, List.length_map,
      List.length_cons]
    simp only [roundAttempts] at ih
    rw [ih, Nat.succ_mul]
    omega

/-! ### Helper lemmas about timestamp rendering -/

theorem digitChar_isDigit : ∀ d : Nat, d < 10 → (digitChar d).isDigit = true := by decide

theorem two_digit_all (n : Nat) (h : n < 100) :
    (two_digit n).data.all Char.isDigit = true := by
  have h1 : n / 10 < 10 := by omega
  have h2 : n % 10 < 10 := by omega
  simp [two_digit, digitChar_isDigit _ h1, digitChar_isDigit _ h2]

theorem four_digit_all (n : Nat) (h : n < 10000) :
    (four_digit n).data.all Char.isDigit = true := by
  have h1 : n / 1000 < 10 := by omega
  have h2 : n / 100 % 10 < 10 := by omega
  have h3 : n / 10 % 10 < 10 := by omega
  have h4 : n % 10 < 10 := by omega
  simp [four_digit, digitChar_isDigit _ h1, digitChar_isDigit _ h2,
    digitChar_isDigit _ h3, digitChar_isDigit _ h4]

theorem string_data_append (a b : String) : (a ++ b).data = a.data ++ b.data := rfl

theorem get_current_time_form (t : UTCTime) (h : ValidUTC t) :
    TimestampForm (get_current_time t) := by
  obtain ⟨hy, hmo, hd, hh, hmi, hs⟩ := h
  refine ⟨four_digit t.year, two_digit t.month, two_digit t.day, two_digit t.hour,
    two_digit t.minute, two_digit t.second, rfl, rfl, rfl, rfl, rfl, rfl, ?_, rfl⟩
  simp [string_data_append, List.all_append, four_digit_all _ hy, two_digit_all _ hmo,
    two_digit_all _ hd, two_digit_all _ hh, two_digit_all _ hmi, two_digit_all _ hs]

/-- A round over attempts none of which hits a protocol error runs to
completion, issues one GET per attempt, and forwards exactly the
single-point batches of the successful attempts, in order. -/
theorem worker_round_events_no_proto (host now : String)
    (outcomeOf : (String × String) → String → PollOutcome) :
    ∀ l : List ((String × String) × String),
      (∀ im ∈ l, isProtoError (outcomeOf im.1 im.2) = false) →
      (worker_round_events host now outcomeOf l).2 = true ∧
      getCount (worker_round_events host now outcomeOf l).1 = l.length ∧
      writtenBatches (worker_round_events host now outcomeOf l).1 =
        l.filterMap (fun im =>
          match outcomeOf im.1 im.2 with
          | .success v => some (build_json im.2 host im.1.1 now v)
          | _ => none) := by
  intro l
  induction l with
  | nil => intro _; exact ⟨rfl, rfl, rfl⟩
  | cons im rest ih =>
    intro h
    have him : isProtoError (outcomeOf im.1 im.2) = false := h im (by simp)
    obtain ⟨h1, h2, h3⟩ := ih (fun x hx => h x (List.mem_cons_of_mem _ hx))
    obtain ⟨i, m⟩ := im
    cases ho : outcomeOf i m with
    | success v =>
      have ha : worker_attempt_events host now i m (outcomeOf i m) =
          ([.get i m, .write (build_json m host i.1 now v)], true) := by
        rw [ho]; rfl
      simp only [worker_round_events, ha, if_pos]
      refine ⟨h1, ?_, ?_⟩
      · rw [getCount_append, h2]
        simp only [getCount, List.filter, List.length]
        omega
      · rw [writtenBatches_append, h3, List.filterMap_cons]
        simp only [ho]
        rfl
    | transportError d =>
      have ha : worker_attempt_events host now i m (outcomeOf i m) =
          ([.get i m, .log (.warning ("Poll failed: " ++ d))], true) := by
        rw [ho]; rfl
      simp only [worker_round_events, ha, if_pos]
      refine ⟨h1, ?_, ?_⟩
      · rw [getCount_append, h2]
        simp only [getCount, List.filter, List.length]
        omega
      · rw [writtenBatches_append, h3, List.filterMap_cons]
        simp only [ho]
        simp [writtenBatches]
    | protocolError st idx =>
      rw [ho] at him
      simp [isProtoError] at him

/-! ### Claims -/

/-- Claim C1 (code bug).  The spec says a protocol error on one
(interface, metric) GET is logged, that attempt is skipped, and the
remaining GETs of the round still execute.  In the source, `poll`'s
error-status branch only prints the diagnostic and falls through
without a `return`, so it returns `None` and the caller's unpacking
`status, value = poll(...)` raises `TypeError`, killing the round: at a
concrete round of K×M = 2 attempts whose first GET hits a protocol
error, the diagnostic is emitted but only 1 GET executes, no point is
forwarded, and the round aborts. -/
theorem claim_C1_protocol_error_aborts_round :
    worker_iteration_events "sw1" "2026-01-01T00:00:00Z" [("0/5", "5")] outcomesProto =
      ([.get ("0/5", "5") "ifHCInOctets", .log (.protoDiag 3 1),
        .crash "TypeError: NoneType is not iterable"], false) ∧
    getCount
      (worker_iteration_events "sw1" "2026-01-01T00:00:00Z" [("0/5", "5")] outcomesProto).1
      = 1 ∧
    writtenBatches
      (worker_iteration_events "sw1" "2026-01-01T00:00:00Z" [("0/5", "5")] outcomesProto).1
      = [] ∧
    (roundAttempts [("0/5", "5")]).length = 2 := by
  refine ⟨?_, ?_, ?_, ?_⟩ <;> decide

/-- Claim C2 (counterexample).  The claim says a protocol-level error
mid-walk still produces entries from the rows walked before the error.
In the source the row-processing loop sits in the `else` branch of the
`err_status` test, so on a protocol error the walked rows are
discarded: with one walked row that would resolve to `("0/5", "5")`,
the host's interface set is nevertheless empty. -/
theorem claim_C2_counterexample :
    resolve_host ["0/5"] (.protocolError 2 1 [demoRow5]) = ([.protoDiag 2 1], []) ∧
    resolveRows ["0/5"] [demoRow5] = [("0/5", "5")] := by
  exact ⟨by decide, by decide⟩

/-- Claim C2 (amended).  On a protocol-level error during a host's
walk, `get_interface_ids` logs the offending error status and index and
produces an empty interface set for that host — rows walked before the
error are discarded, and there is no hard failure. -/
theorem claim_C2_amended (patterns : List String) (st idx : Nat) (rows : List WalkRow) :
    resolve_host patterns (.protocolError st idx rows) = ([.protoDiag st idx], []) := by
  rfl

/-- Claim C3.  If some configured pattern literally ends a walked
description, resolution yields an entry whose snmpIndex is the final
dotted component of that row's OID; a row matched by no configured
pattern contributes no entry. -/
theorem claim_C3_suffix_resolution :
    (∀ (patterns : List String) (rows : List WalkRow) (p : String) (row : WalkRow),
        p ∈ patterns → row ∈ rows → p.data.isSuffixOf row.val.data = true →
        ∃ q : String, (q, get_interface_id_from_mib row.oid) ∈ resolveRows patterns rows) ∧
    (∀ (patterns : List String) (rows₁ rows₂ : List WalkRow) (row : WalkRow),
        (∀ p ∈ patterns, re_search_suffix p row.val = false) →
        resolveRows patterns (rows₁ ++ row :: rows₂) =
          resolveRows patterns (rows₁ ++ rows₂)) := by
  constructor
  · intro patterns rows p row hp hrow hsuf
    have hm : re_search_suffix p row.val = true := re_search_suffix_of_suffix _ _ hsuf
    have hsome : (patterns.find? (fun x => re_search_suffix x row.val)).isSome := by
      rw [List.find?_isSome]
      exact ⟨p, hp, hm⟩
    obtain ⟨q, hq⟩ := Option.isSome_iff_exists.mp hsome
    refine ⟨q, ?_⟩
    rw [resolveRows, List.mem_filterMap]
    exact ⟨row, hrow, by simp [rowEntry, firstMatchingPattern, hq]⟩
  · intro patterns rows₁ rows₂ row hnone
    have hfind : patterns.find? (fun x => re_search_suffix x row.val) = none :=
      List.find?_eq_none.mpr (fun x hx => by simp [hnone x hx])
    simp [resolveRows, List.filterMap_append, List.filterMap_cons, rowEntry,
      firstMatchingPattern, hfind]

/-- Claim C3, witness: the §8 scenario.  Pattern `0/5` ends
`GigabitEthernet0/5`, so an entry with snmpIndex `5` appears; row
`GigabitEthernet0/7` matches no pattern and contributes nothing. -/
theorem claim_C3_witness :
    (∃ q : String,
      (q, get_interface_id_from_mib demoRow5.oid) ∈ resolveRows ["0/5"] [demoRow5]) ∧
    resolveRows ["0/5"] ([demoRow5] ++ demoRow7 :: []) =
      resolveRows ["0/5"] ([demoRow5] ++ []) :=
  ⟨claim_C3_suffix_resolution.1 ["0/5"] [demoRow5] "0/5" demoRow5
      (by decide) (by decide) (by decide),
   claim_C3_suffix_resolution.2 ["0/5"] [demoRow5] [] demoRow7 (by decide)⟩

/-- Claim C4 (counterexample).  The claim promises exactly K×M GET
operations per round unconditionally, but a round in which one GET
returns a protocol error aborts (see C1): with K = 1 interface and the
M = 2 hard-coded metrics, only one GET executes instead of K×M = 2. -/
theorem claim_C4_counterexample :
    getCount
      (worker_iteration_events "sw1" "2026-02-03T04:05:06Z" [("0/5", "5")] outcomesProto).1
      ≠ [(("0/5" : String), ("5" : String))].length * worker_metrics.length := by
  decide

/-- Claim C4 (amended).  Provided no GET of the round returns a
protocol error, a round over K resolved interfaces and the M = 2
hard-coded metric names issues exactly K×M GETs, and each successful
GET produces exactly one single-point batch, forwarded in attempt
order and stamped with the rendered current UTC time, which has the
`YYYY-MM-DDTHH:MM:SSZ` shape. -/
theorem claim_C4_round_accounting (host : String) (t : UTCTime)
    (interfaces : List (String × String))
    (outcomeOf : (String × String) → String → PollOutcome)
    (hp : ∀ im ∈ roundAttempts interfaces, isProtoError (outcomeOf im.1 im.2) = false)
    (ht : ValidUTC t) :
    (worker_iteration_events host (get_current_time t) interfaces outcomeOf).2 = true ∧
    getCount (worker_iteration_events host (get_current_time t) interfaces outcomeOf).1 =
      interfaces.length * worker_metrics.length ∧
    writtenBatches
        (worker_iteration_events host (get_current_time t) interfaces outcomeOf).1 =
      (roundAttempts interfaces).filterMap (fun im =>
        match outcomeOf im.1 im.2 with
        | .success v => some (build_json im.2 host im.1.1 (get_current_time t) v)
        | _ => none) ∧
    (∀ b ∈ writtenBatches
        (worker_iteration_events host (get_current_time t) interfaces outcomeOf).1,
      ∃ pt : Point, b = [pt] ∧ pt.time = get_current_time t) ∧
    TimestampForm (get_current_time t) := by
  obtain ⟨h1, h2, h3⟩ :=
    worker_round_events_no_proto host (get_current_time t) outcomeOf
      (roundAttempts interfaces) hp
  have hiter :
      worker_iteration_events host (get_current_time t) interfaces outcomeOf =
        ((worker_round_events host (get_current_time t) outcomeOf
            (roundAttempts interfaces)).1 ++ [.sleep worker_sleep_seconds], true) := by
    simp [worker_iteration_events, h1]
  refine ⟨by rw [hiter], ?_, ?_, ?_, get_current_time_form t ht⟩
  · rw [hiter]
    simp only [getCount_append]
    rw [h2, roundAttempts_length]
    simp [getCount]
  · rw [hiter]
    simp only [writtenBatches_append]
    rw [h3]
    simp [writtenBatches]
  · intro b hb
    rw [hiter] at hb
    simp only [writtenBatches_append] at hb
    rw [h3] at hb
    have hb' : b ∈ (roundAttempts interfaces).filterMap (fun im =>
        match outcomeOf im.1 im.2 with
        | .success v => some (build_json im.2 host im.1.1 (get_current_time t) v)
        | _ => none) := by
      simpa [writtenBatches] using hb
    obtain ⟨im, _, heq⟩ := List.mem_filterMap.mp hb'
    cases ho : outcomeOf im.1 im.2 with
    | success v =>
      rw [ho] at heq
      refine ⟨{ measurement := im.2, host := host, interface := im.1.1,
                time := get_current_time t, value := v }, ?_, rfl⟩
      simpa [build_json] using heq.symm
    | transportError d => rw [ho] at heq; simp at heq
    | protocolError st idx => rw [ho] at heq; simp at heq

/-- Claim C4, witness: one interface, every GET succeeding with the §8
counter value, at a concrete clock reading. -/
theorem claim_C4_witness :
    (worker_iteration_events "sw1" (get_current_time demoTime) [("0/5", "5")]
        outcomesOk).2 = true ∧
    getCount (worker_iteration_events "sw1" (get_current_time demoTime) [("0/5", "5")]
        outcomesOk).1 = 1 * worker_metrics.length ∧
    TimestampForm (get_current_time demoTime) := by
  obtain ⟨h1, h2, h3, h4, h5⟩ :=
    claim_C4_round_accounting "sw1" demoTime [("0/5", "5")] outcomesOk
      (by decide)
      ⟨by decide, by decide, by decide, by decide, by decide, by decide⟩
  exact ⟨h1, h2, h5⟩

/-- Claim C5 (counterexample).  The spec says the loop runs every
`interval` seconds with a per-host interval supplied by configuration;
the source sleeps the literal `10` regardless, so a host whose
spec-level configured interval is 5 seconds still gets a 10-second
sleep. -/
theorem claim_C5_counterexample :
    worker_sleep_seconds ≠ (SpecHostConfig.mk "sw1" "public" 161 5 ["0/5"]).interval := by
  decide

/-- Claim C5 (amended).  The loop is fixed-delay with a hard-coded
period: after a completed round the worker sleeps exactly
`worker_sleep_seconds = 10` seconds, the sleep event following every
event of the round; no configured interval is consulted. -/
theorem claim_C5_fixed_delay (host now : String) (interfaces : List (String × String))
    (outcomeOf : (String × String) → String → PollOutcome)
    (h : (worker_round_events host now outcomeOf (roundAttempts interfaces)).2 = true) :
    worker_iteration_events host now interfaces outcomeOf =
      ((worker_round_events host now outcomeOf (roundAttempts interfaces)).1 ++
        [.sleep worker_sleep_seconds], true) ∧
    worker_sleep_seconds = 10 := by
  constructor
  · simp [worker_iteration_events, h]
  · rfl

/-- Claim C5, witness: a completing one-interface round. -/
theorem claim_C5_witness :
    worker_iteration_events "sw1" "t" [("0/5", "5")] outcomesOk =
      ((worker_round_events "sw1" "t" outcomesOk (roundAttempts [("0/5", "5")])).1 ++
        [.sleep worker_sleep_seconds], true) ∧
    worker_sleep_seconds = 10 :=
  claim_C5_fixed_delay "sw1" "t" [("0/5", "5")] outcomesOk (by decide)

/-- Claim C6 (counterexample).  The claim says the loaded configuration
(in particular each host's pattern list) is immutable.  But
`get_interface_ids` assigns the resolved pairs back into
`config['hosts'][host]['interfaces']`: after resolution, `sw1`'s
`interfaces` value is the tuple list `[("0/5", "5")]`, no longer the
configured pattern list `["0/5"]`. -/
theorem claim_C6_counterexample :
    ((get_interface_ids cfgOne walkOk).hosts.lookup "sw1").map resolvedItems ≠
      (cfgOne.hosts.lookup "sw1").map patItems := by
  decide

/-- Claim C6 (amended).  `get_interface_ids` overwrites each host's
`interfaces` configuration entry with the resolved
`(pattern, interface_id)` pairs computed from that host's walk: the
configuration is modified in place, not immutable. -/
theorem claim_C6_config_overwritten (cfg : ConfigIn) (walkOf : String → WalkResult)
    (host : String) (pats : List String)
    (h : cfg.hosts.lookup host = some pats) :
    (get_interface_ids cfg walkOf).hosts.lookup host =
      some (resolve_host pats (walkOf host)).2 := by
  have := lookup_map_assoc (fun hh ps => (resolve_host ps (walkOf hh)).2) cfg.hosts host
  simp only [get_interface_ids] at *
  rw [this, h]
  rfl

/-- Claim C6, witness. -/
theorem claim_C6_witness :
    (get_interface_ids cfgOne walkOk).hosts.lookup "sw1" =
      some (resolve_host ["0/5"] (walkOk "sw1")).2 :=
  claim_C6_config_overwritten cfgOne walkOk "sw1" ["0/5"] (by decide)

/-- Claim C7.  Per walked row, at most one entry is produced and it
records the first configured pattern (in configured order) that
matches — later patterns are not tried; yet two distinct rows whose
first match is the same pattern both produce entries, preserved
without deduplication. -/
theorem claim_C7_first_match_no_dedup :
    (∀ (pre post : List String) (p : String) (row : WalkRow),
        (∀ q ∈ pre, re_search_suffix q row.val = false) →
        re_search_suffix p row.val = true →
        rowEntry (pre ++ p :: post) row =
          some (p, get_interface_id_from_mib row.oid)) ∧
    (∀ (patterns : List String) (row : WalkRow),
        (resolveRows patterns [row]).length ≤ 1) ∧
    (∀ (patterns : List String) (l₁ l₂ l₃ : List WalkRow) (r₁ r₂ : WalkRow)
        (e₁ e₂ : String × String),
        rowEntry patterns r₁ = some e₁ → rowEntry patterns r₂ = some e₂ →
        resolveRows patterns (l₁ ++ r₁ :: (l₂ ++ r₂ :: l₃)) =
          resolveRows patterns l₁ ++
            e₁ :: (resolveRows patterns l₂ ++ e₂ :: resolveRows patterns l₃)) := by
  refine ⟨?_, ?_, ?_⟩
  · intro pre post p row hpre hp
    have hfind : (pre ++ p :: post).find? (fun x => re_search_suffix x row.val) = some p := by
      rw [find?_append_none _ pre (p :: post) hpre]
      exact List.find?_cons_of_pos _ hp
    simp [rowEntry, firstMatchingPattern, hfind]
  · intro patterns row
    cases h : rowEntry patterns row <;> simp [resolveRows, h]
  · intro patterns l₁ l₂ l₃ r₁ r₂ e₁ e₂ h₁ h₂
    simp [resolveRows, List.filterMap_append, List.filterMap_cons, h₁, h₂]

/-- Claim C7, witness: `GigabitEthernet0/5` is not matched by `eth9`
but is matched by `0/5`, which wins before `net0/5` is tried; rows at
indices 5 and 8 both end in `0/5` and both entries survive. -/
theorem claim_C7_witness :
    rowEntry (["eth9"] ++ "0/5" :: ["net0/5"]) demoRow5 =
      some ("0/5", get_interface_id_from_mib demoRow5.oid) ∧
    resolveRows ["0/5"] ([] ++ demoRow5 :: ([] ++ demoRow8 :: [])) =
      resolveRows ["0/5"] [] ++
        ("0/5", "5") :: (resolveRows ["0/5"] [] ++ ("0/5", "8") :: resolveRows ["0/5"] []) :=
  ⟨claim_C7_first_match_no_dedup.1 ["eth9"] ["net0/5"] "0/5" demoRow5
      (by decide) (by decide),
   claim_C7_first_match_no_dedup.2.2 ["0/5"] [] [] [] demoRow5 demoRow8
      ("0/5", "5") ("0/5", "8") (by decide) (by decide)⟩

/-- Claim C8.  A transport error on host H's walk leaves H with an
empty resolved interface set and a warning in the log; every other
host's result depends only on its own walk, so H2 is unaffected; and
resolution always yields a result for every configured host (no
abort). -/
theorem claim_C8_transport_error_isolated :
    (∀ (cfg : ConfigIn) (walkOf : String → WalkResult) (h d : String)
        (pats : List String),
        walkOf h = .transportError d →
        cfg.hosts.lookup h = some pats →
        (get_interface_ids cfg walkOf).hosts.lookup h = some [] ∧
        ((h, pats) ∈ cfg.hosts →
          LogEvent.warning d ∈ get_interface_ids_logs cfg walkOf)) ∧
    (∀ (cfg : ConfigIn) (walkOf walkOf' : String → WalkResult) (h₂ : String),
        walkOf h₂ = walkOf' h₂ →
        (get_interface_ids cfg walkOf).hosts.lookup h₂ =
          (get_interface_ids cfg walkOf').hosts.lookup h₂) ∧
    (∀ (cfg : ConfigIn) (walkOf : String → WalkResult),
        (get_interface_ids cfg walkOf).hosts.map Prod.fst = cfg.hosts.map Prod.fst) := by
  refine ⟨?_, ?_, ?_⟩
  · intro cfg walkOf h d pats hw hl
    constructor
    · have := lookup_map_assoc (fun hh ps => (resolve_host ps (walkOf hh)).2) cfg.hosts h
      simp only [get_interface_ids]
      rw [this, hl]
      simp [resolve_host, hw]
    · intro hm
      rw [get_interface_ids_logs, List.mem_flatMap]
      refine ⟨(h, pats), hm, ?_⟩
      simp [resolve_host, hw]
  · intro cfg walkOf walkOf' h₂ hw
    have t1 := lookup_map_assoc (fun hh ps => (resolve_host ps (walkOf hh)).2) cfg.hosts h₂
    have t2 := lookup_map_assoc (fun hh ps => (resolve_host ps (walkOf' hh)).2) cfg.hosts h₂
    simp only [get_interface_ids]
    rw [t1, t2, hw]
  · intro cfg walkOf
    simp [get_interface_ids, List.map_map, Function.comp]

/-- Claim C8, witness: `sw1`'s walk times out while `sw2`'s succeeds;
`sw1` resolves to the empty set with the warning logged, and `sw2`'s
result is the same as under a transport with no `sw1` failure. -/
theorem claim_C8_witness :
    (get_interface_ids cfgDemo walkDemo).hosts.lookup "sw1" = some [] ∧
    LogEvent.warning "timeout" ∈ get_interface_ids_logs cfgDemo walkDemo ∧
    (get_interface_ids cfgDemo walkDemo).hosts.lookup "sw2" =
      (get_interface_ids cfgDemo walkOk).hosts.lookup "sw2" := by
  obtain ⟨h1, h2⟩ :=
    claim_C8_transport_error_isolated.1 cfgDemo walkDemo "sw1" "timeout" ["0/5"]
      (by decide) (by decide)
  exact ⟨h1, h2 (by decide),
    claim_C8_transport_error_isolated.2.1 cfgDemo walkDemo walkOk "sw2" (by decide)⟩

/-- Claim C9.  Zero configured patterns resolve to zero interfaces —
whatever the walk returns — and a poller with zero resolved interfaces
issues zero GETs per round (its whole iteration is the bare sleep). -/
theorem claim_C9_zero_patterns_zero_gets :
    (∀ walk : WalkResult, (resolve_host [] walk).2 = []) ∧
    (∀ rows : List WalkRow, resolveRows [] rows = []) ∧
    (∀ (host now : String) (outcomeOf : (String × String) → String → PollOutcome),
        worker_iteration_events host now [] outcomeOf =
          ([.sleep worker_sleep_seconds], true) ∧
        getCount (worker_iteration_events host now [] outcomeOf).1 = 0) := by
  have hrows : ∀ rows : List WalkRow, resolveRows [] rows = [] := by
    intro rows
    simp [resolveRows, List.filterMap_eq_nil_iff, rowEntry, firstMatchingPattern]
  refine ⟨?_, hrows, ?_⟩
  · intro walk
    cases walk with
    | transportError d => rfl
    | protocolError st idx rows => rfl
    | ok rows => exact hrows rows
  · intro host now outcomeOf
    exact ⟨rfl, rfl⟩

/-- Claim C10.  Patterns are compiled as regexes, so metacharacters
keep their regex meaning: `0.5` (with `.` as wildcard) matches
`GigabitEthernet0x5`, which does not literally end in `0.5`, and an
entry is produced for it; while a metacharacter-free pattern matches
exactly the literal suffixes. -/
theorem claim_C10_regex_semantics :
    (re_search_suffix "0.5" "GigabitEthernet0x5" = true ∧
     "0.5".data.isSuffixOf "GigabitEthernet0x5".data = false ∧
     resolveRows ["0.5"] [⟨"1.3.6.1.2.1.2.2.1.2.5", "GigabitEthernet0x5"⟩] =
       [("0.5", "5")]) ∧
    (∀ p s : String, metaFree p = true →
      re_search_suffix p s = p.data.isSuffixOf s.data) :=
  ⟨⟨by decide, by decide, by decide⟩,
   fun p s h => re_search_suffix_metaFree p s h⟩

/-- Claim C10, witness: `0/5` is metacharacter-free, and on
`GigabitEthernet0/5` its regex search agrees with the literal suffix
test. -/
theorem claim_C10_witness :
    re_search_suffix "0/5" "GigabitEthernet0/5" =
      "0/5".data.isSuffixOf "GigabitEthernet0/5".data :=
  claim_C10_regex_semantics.2 "0/5" "GigabitEthernet0/5" (by decide)
